import Mathlib

/-!
Verification of the `DogShoke/Config2` configuration utility (`src/main.py`).

The program reads a CSV key/value file into a string dictionary
(`read_csv_config`), validates it against a fixed schema
(`validate_and_normalize`), and prints the normalized mapping (`print_kv`).

Shallow embedding conventions used throughout:
* Python `dict` objects are modelled as association lists
  `List (String × String)` with last-write-wins insertion (`dictInsert`);
  iteration order is insertion order, as in CPython.
* The filesystem is external state: `os.path.exists` is a parameter
  `fs : String → Bool` and `os.path.abspath` a parameter
  `abspath : String → String`.
* Python string operations (`strip`, `lower`, `int(...)`, string
  comparison, `urllib.parse.urlparse`, `os.path.splitext`) are embedded
  at the character level for ASCII input: `pyStrip` drops the ASCII
  whitespace that `str.strip` drops, `pyLower` maps `A..Z` as
  `str.lower` does on ASCII, `pyInt` accepts an optional sign and ASCII
  digits with single underscores between digits exactly as CPython does
  on ASCII text, and `pyStrLe` is the code-point comparison `sorted`
  uses.
* Each `raise ConfigError(...)` site is modelled by a distinct
  constructor of `LoadError` / `ValidationError`, following the error
  taxonomy of the specification; a Python exception that the program
  does not catch (the `IndexError` on an empty first CSV row) is the
  constructor `LoadError.indexError`.
* CSV reading is modelled from the row level: the input of
  `read_csv_config` is the list of rows (`List (List String)`) that
  `csv.reader` yields; a blank line yields the empty row `[]`.
-/

deriving instance DecidableEq for Except

namespace Config2

/-- ASCII whitespace stripped by Python `str.strip()`. -/
def pyWhitespace (c : Char) : Bool :=
  c == ' ' || c == '\t' || c == '\n' || c == '\r' || c == '\x0b' || c == '\x0c'

/-- Python `s.strip()` on ASCII text: drop leading and trailing
whitespace. -/
def pyStrip (s : String) : String :=
  String.mk (((s.data.dropWhile pyWhitespace).reverse.dropWhile pyWhitespace).reverse)

/-- Python `s.lower()` on ASCII text: lowercase `A..Z`. -/
def pyLower (s : String) : String :=
  String.mk (s.data.map Char.toLower)

/-- Python string comparison (`<=` as used by `sorted`): lexicographic
by code point. -/
def pyListLe : List Char → List Char → Bool
  | [], _ => true
  | _ :: _, [] => false
  | a :: as, b :: bs =>
    if a < b then true
    else if b < a then false
    else pyListLe as bs

/-- Python `a <= b` on strings. -/
def pyStrLe (a b : String) : Bool :=
  pyListLe a.data b.data

/-- Lookup in a Python-dict-as-association-list: value of the first pair
whose key matches (keys are unique by construction of `dictInsert`). -/
def dictGet (cfg : List (String × String)) (k : String) : Option String :=
  match cfg.find? (fun p => p.1 == k) with
  | some p => some p.2
  | none => none

/-- `dictGet` with default `""`; used only after key presence is ensured. -/
def dictGetD (cfg : List (String × String)) (k : String) : String :=
  (dictGet cfg k).getD ""

/-- `cfg[k] = v` on a Python dict: overwrite in place if the key exists
(keeping its position), else append. -/
def dictInsert (cfg : List (String × String)) (k v : String) : List (String × String) :=
  if cfg.any (fun p => p.1 == k) then
    cfg.map (fun p => if p.1 == k then (k, v) else p)
  else
    cfg ++ [(k, v)]

/-- Sorting a list of strings as Python `sorted` does (lexicographic by
code point). -/
def sortStrings (l : List String) : List String :=
  List.insertionSort (fun a b => pyStrLe a b = true) l

/-- `REQUIRED_KEYS` of `src/main.py` (a Python `set`; modelled as the
list of its distinct elements in source order). -/
def REQUIRED_KEYS : List String :=
  ["package_name", "repo_url_or_path", "test_repo_mode",
   "output_image", "ascii_mode", "max_depth"]

/-- The required keys in Python `sorted` order. -/
def REQUIRED_KEYS_SORTED : List String :=
  ["ascii_mode", "max_depth", "output_image", "package_name",
   "repo_url_or_path", "test_repo_mode"]

/-- `VALID_TEST_REPO_MODES` of `src/main.py`. -/
def VALID_TEST_REPO_MODES : List String := ["none", "local", "clone"]

/-- `VALID_ASCII_MODES` of `src/main.py`. -/
def VALID_ASCII_MODES : List String := ["none", "tree"]

/-- Errors raised by `read_csv_config` (each constructor is one raise
site), plus `indexError` for the uncaught Python `IndexError` that
`header[0]` raises when the first CSV row is empty. -/
inductive LoadError where
  | notFound : LoadError
  | empty : LoadError
  | malformedRow : List String → LoadError
  | emptyKey : List String → LoadError
  | indexError : LoadError
deriving DecidableEq, Repr

/-- Errors raised by `validate_and_normalize` (each constructor is one
raise site, named after the specification's error taxonomy). -/
inductive ValidationError where
  | missingKeys : List String → ValidationError
  | emptyField : String → ValidationError
  | invalidEnum : String → ValidationError
  | inconsistentMode : ValidationError
  | missingExtension : ValidationError
  | notAnInteger : ValidationError
  | negativeValue : ValidationError
deriving DecidableEq, Repr

/-- The row loop of `read_csv_config` (`for row in reader`, src/main.py
lines 48-57): empty rows are skipped, rows with fewer than two columns
fail, a trimmed-empty key fails, otherwise the pair is stored. -/
def processRows (cfg : List (String × String)) :
    List (List String) → Except LoadError (List (String × String))
  | [] => .ok cfg
  | row :: rest =>
    match row with
    | [] => processRows cfg rest
    | [c] => .error (.malformedRow [c])
    | c0 :: c1 :: _ =>
      if pyStrip c0 = "" then .error (.emptyKey row)
      else processRows (dictInsert cfg (pyStrip c0) (pyStrip c1)) rest

/-- `read_csv_config` of `src/main.py` from the row level: no rows is the
`Empty` error; a first row whose first cell strips/lowers to `key` (and
which has at least two cells) is a header and is skipped; an empty first
row hits `header[0]` and raises the uncaught `IndexError`; any other
first row is stored as a data pair, with a missing second column read as
`""` and no empty-key check. -/
def read_csv_config : List (List String) → Except LoadError (List (String × String))
  | [] => .error .empty
  | header :: rest =>
    match header with
    | [] => .error .indexError
    | [c0] => processRows (dictInsert [] (pyStrip c0) "") rest
    | c0 :: c1 :: _ =>
      if pyLower (pyStrip c0) = "key" then processRows [] rest
      else processRows (dictInsert [] (pyStrip c0) (pyStrip c1)) rest

/-- Characters allowed in a URL scheme after the first
(`urllib.parse.scheme_chars`). -/
def schemeChar (c : Char) : Bool :=
  c.isAlphanum || c == '+' || c == '-' || c == '.'

/-- Split a character list at its first `:`, returning the part before
and the part after, or `none` when there is no colon. -/
def splitAtColon : List Char → Option (List Char × List Char)
  | [] => none
  | c :: rest =>
    if c == ':' then some ([], rest)
    else
      match splitAtColon rest with
      | some p => some (c :: p.1, p.2)
      | none => none

/-- The scheme splitting step of `urllib.parse.urlsplit`: if the text
before the first colon is nonempty, starts with an ASCII letter and
continues with scheme characters, it is the (lowercased) scheme and the
rest follows the colon; otherwise there is no scheme and the URL is left
whole. -/
def pySplitScheme (s : List Char) : List Char × List Char :=
  match splitAtColon s with
  | none => ([], s)
  | some (before, after) =>
    match before with
    | [] => ([], s)
    | c0 :: cs =>
      if c0.isAlpha && cs.all schemeChar then
        ((c0 :: cs).map Char.toLower, after)
      else ([], s)

/-- The netloc extraction step of `urllib.parse.urlsplit`: after the
scheme, a `//` introduces the authority, which extends to the next `/`,
`?` or `#`. -/
def pyNetlocOf (rest : List Char) : List Char :=
  match rest with
  | '/' :: '/' :: r => r.takeWhile (fun c => !(c == '/' || c == '?' || c == '#'))
  | _ => []

/-- `urlparse(r).scheme` for the fragment-free strings this program
classifies. -/
def urlScheme (r : String) : String :=
  String.mk (pySplitScheme r.data).1

/-- `urlparse(r).netloc` for the fragment-free strings this program
classifies. -/
def urlNetloc (r : String) : String :=
  String.mk (pyNetlocOf (pySplitScheme r.data).2)

/-- The URL test of src/main.py line 83:
`parsed.scheme in ('http', 'https', 'git') and parsed.netloc`. -/
def isRepoUrl (r : String) : Bool :=
  (urlScheme r == "http" || urlScheme r == "https" || urlScheme r == "git")
    && urlNetloc r != ""

/-- The classification of `repo_url_or_path` (src/main.py lines 82-95):
the normalized value together with `repo_type`. -/
def classifyRepo (fs : String → Bool) (abspath : String → String) (repo : String) :
    String × String :=
  if isRepoUrl repo then (repo, "url")
  else if fs repo then (abspath repo, "local")
  else (repo, "unknown")

/-- The basename of a POSIX path: everything after the last `/`. -/
def basenamePart (p : List Char) : List Char :=
  (p.reverse.takeWhile (fun c => !(c == '/'))).reverse

/-- `os.path.splitext(p)[1]`: the extension starts at the last dot of the
basename, provided some earlier character of the basename is not a dot
(so leading dots, as in `.bashrc`, never start an extension). -/
def splitextExt (p : String) : String :=
  match (basenamePart p.data).reverse.dropWhile (fun c => !(c == '.')) with
  | [] => ""
  | _ :: beforeRev =>
    if beforeRev.any (fun c => !(c == '.')) then
      String.mk ('.' :: ((basenamePart p.data).reverse.takeWhile (fun c => !(c == '.'))).reverse)
    else ""

/-- The digit-and-underscore tail of CPython `int` parsing: after an
accepted digit, either another digit follows, or a single underscore
followed by a digit. -/
def pyDigitsAux (acc : Nat) : List Char → Option Nat
  | [] => some acc
  | c :: rest =>
    if c.isDigit then pyDigitsAux (acc * 10 + (c.toNat - 48)) rest
    else if c == '_' then
      match rest with
      | [] => none
      | c2 :: rest2 =>
        if c2.isDigit then pyDigitsAux (acc * 10 + (c2.toNat - 48)) rest2
        else none
    else none

/-- The unsigned part of CPython `int`: one or more ASCII digits with
optional single underscores between digits. -/
def pyIntMag : List Char → Option Nat
  | [] => none
  | c :: rest =>
    if c.isDigit then pyDigitsAux (c.toNat - 48) rest else none

/-- CPython `int` on an already-stripped ASCII character list: an
optional sign followed by digits with optional single underscores
between digits. -/
def pyIntList : List Char → Option Int
  | [] => none
  | c :: rest =>
    if c == '+' then (pyIntMag rest).map (fun n => (n : Int))
    else if c == '-' then (pyIntMag rest).map (fun n => -(n : Int))
    else (pyIntMag (c :: rest)).map (fun n => (n : Int))

/-- CPython `int(s)` on already-stripped ASCII text. -/
def pyInt (s : String) : Option Int :=
  pyIntList s.data

/-- The `max_depth` step of `validate_and_normalize` (src/main.py lines
121-131): trim, reject empty, parse with Python `int`, reject
negatives. -/
def parseMaxDepth (raw : String) : Except ValidationError Int :=
  if pyStrip raw = "" then .error (.emptyField "max_depth")
  else
    match pyInt (pyStrip raw) with
    | none => .error .notAnInteger
    | some n => if n < 0 then .error .negativeValue else .ok n

/-- The sorted list of required keys absent from `cfg`
(`sorted(REQUIRED_KEYS - set(cfg.keys()))`, src/main.py lines 66-68). -/
def missingList (cfg : List (String × String)) : List String :=
  sortStrings (REQUIRED_KEYS.filter (fun k => (dictGet cfg k).isNone))

/-- `validate_and_normalize` of `src/main.py` (lines 65-133): fail-fast
validation in the fixed source order, producing the normalized output
dict in its insertion order. `fs` is `os.path.exists` and `abspath` is
`os.path.abspath`. -/
def validate_and_normalize (fs : String → Bool) (abspath : String → String)
    (cfg : List (String × String)) : Except ValidationError (List (String × String)) :=
  if missingList cfg ≠ [] then .error (.missingKeys (missingList cfg))
  else if pyStrip (dictGetD cfg "package_name") = "" then .error (.emptyField "package_name")
  else if pyStrip (dictGetD cfg "repo_url_or_path") = "" then
    .error (.emptyField "repo_url_or_path")
  else if pyLower (pyStrip (dictGetD cfg "test_repo_mode")) ∉ VALID_TEST_REPO_MODES then
    .error (.invalidEnum "test_repo_mode")
  else if pyLower (pyStrip (dictGetD cfg "test_repo_mode")) = "local"
      ∧ (classifyRepo fs abspath (pyStrip (dictGetD cfg "repo_url_or_path"))).2 = "unknown" then
    .error .inconsistentMode
  else if pyStrip (dictGetD cfg "output_image") = "" then .error (.emptyField "output_image")
  else if splitextExt (pyStrip (dictGetD cfg "output_image")) = "" then
    .error .missingExtension
  else if pyLower (pyStrip (dictGetD cfg "ascii_mode")) ∉ VALID_ASCII_MODES then
    .error (.invalidEnum "ascii_mode")
  else
    match parseMaxDepth (dictGetD cfg "max_depth") with
    | .error e => .error e
    | .ok n =>
      .ok [("package_name", pyStrip (dictGetD cfg "package_name")),
           ("repo_url_or_path",
             (classifyRepo fs abspath (pyStrip (dictGetD cfg "repo_url_or_path"))).1),
           ("repo_type",
             (classifyRepo fs abspath (pyStrip (dictGetD cfg "repo_url_or_path"))).2),
           ("test_repo_mode", pyLower (pyStrip (dictGetD cfg "test_repo_mode"))),
           ("output_image", pyStrip (dictGetD cfg "output_image")),
           ("ascii_mode", pyLower (pyStrip (dictGetD cfg "ascii_mode"))),
           ("max_depth", toString n)]

/-- The keys of the normalized config, in the insertion order of
`validate_and_normalize`. -/
def NORMALIZED_KEYS : List String :=
  ["package_name", "repo_url_or_path", "repo_type", "test_repo_mode",
   "output_image", "ascii_mode", "max_depth"]

/-- `print_kv` of `src/main.py` (lines 136-139) as the list of lines it
writes to standard output: a fixed Russian header line, then one
`key=value` line per key in Python `sorted` order. -/
def print_kv (cfgNorm : List (String × String)) : List String :=
  "Параметры конфигурации (ключ=значение):" ::
    (sortStrings (cfgNorm.map Prod.fst)).map (fun k => k ++ "=" ++ dictGetD cfgNorm k)

/-- Modelled from the spec: "the trimmed input interpreted as base-10" —
the usual decimal value of a digit string. -/
def decimalValue (ds : List Char) : Nat :=
  ds.foldl (fun a c => a * 10 + (c.toNat - 48)) 0

/-- Modelled from the spec: the first violated rule of the fixed
validation order of §4.2 — (1) required keys, (2) package_name,
(3) repo_url_or_path, (4) test_repo_mode (enum, then consistency),
(5) output_image (empty, then extension), (6) ascii_mode,
(7) max_depth (empty, then integer parse, then sign) — or `none` when
every rule passes. -/
def specFirstError (fs : String → Bool) (abspath : String → String)
    (cfg : List (String × String)) : Option ValidationError :=
  if missingList cfg ≠ [] then some (.missingKeys (missingList cfg))
  else if pyStrip (dictGetD cfg "package_name") = "" then some (.emptyField "package_name")
  else if pyStrip (dictGetD cfg "repo_url_or_path") = "" then
    some (.emptyField "repo_url_or_path")
  else if pyLower (pyStrip (dictGetD cfg "test_repo_mode")) ∉ VALID_TEST_REPO_MODES then
    some (.invalidEnum "test_repo_mode")
  else if pyLower (pyStrip (dictGetD cfg "test_repo_mode")) = "local"
      ∧ (classifyRepo fs abspath (pyStrip (dictGetD cfg "repo_url_or_path"))).2 = "unknown" then
    some .inconsistentMode
  else if pyStrip (dictGetD cfg "output_image") = "" then some (.emptyField "output_image")
  else if splitextExt (pyStrip (dictGetD cfg "output_image")) = "" then
    some .missingExtension
  else if pyLower (pyStrip (dictGetD cfg "ascii_mode")) ∉ VALID_ASCII_MODES then
    some (.invalidEnum "ascii_mode")
  else if pyStrip (dictGetD cfg "max_depth") = "" then some (.emptyField "max_depth")
  else
    match pyInt (pyStrip (dictGetD cfg "max_depth")) with
    | none => some .notAnInteger
    | some n => if n < 0 then some .negativeValue else none

/-! ### Helper lemmas -/

theorem pyListLe_not_lex :
    ∀ (x y : List Char), pyListLe x y = true → ¬ List.Lex (· < ·) y x := by
  intro x
  induction x with
  | nil => intro y _ h'; cases h'
  | cons a as ih =>
    intro y h h'
    cases y with
    | nil => simp [pyListLe] at h
    | cons b bs =>
      cases h' with
      | rel hba =>
        rw [pyListLe, if_neg (lt_asymm hba), if_pos hba] at h
        exact Bool.noConfusion h
      | cons h2 =>
        rw [pyListLe, if_neg (lt_irrefl a), if_neg (lt_irrefl a)] at h
        exact ih bs h h2

/-- The embedded Python string comparison implies Mathlib's
lexicographic order on `String`. -/
theorem pyStrLe_le (a b : String) (h : pyStrLe a b = true) : a ≤ b := by
  rw [String.le_iff_toList_le]
  exact not_lt.mp (pyListLe_not_lex a.data b.data h)

theorem isDigit_notSign (c : Char) (h : c.isDigit) :
    (c == '+') = false ∧ (c == '-') = false ∧ (c == '_') = false := by
  refine ⟨?_, ?_, ?_⟩ <;>
    · rw [beq_eq_false_iff_ne]
      rintro rfl
      exact absurd h (by decide)

theorem pyDigitsAux_all_digits (ds : List Char) :
    ∀ acc : Nat, (∀ c ∈ ds, c.isDigit) →
      pyDigitsAux acc ds = some (ds.foldl (fun a c => a * 10 + (c.toNat - 48)) acc) := by
  induction ds with
  | nil => intro acc _; rfl
  | cons c rest ih =>
    intro acc h
    have hc : c.isDigit := h c (by simp)
    rw [pyDigitsAux.eq_def]
    simp only [if_pos hc]
    rw [ih _ (fun d hd => h d (by simp [hd]))]
    rfl

theorem pyIntList_all_digits (ds : List Char) (hne : ds ≠ [])
    (hd : ∀ c ∈ ds, c.isDigit) :
    pyIntList ds = some ((decimalValue ds : Nat) : Int) := by
  rcases ds with _ | ⟨c, rest⟩
  · exact absurd rfl hne
  · have hc : c.isDigit := hd c (by simp)
    obtain ⟨hp, hm, _⟩ := isDigit_notSign c hc
    rw [pyIntList.eq_def]
    simp only [hp, hm, Bool.false_eq_true, if_false]
    rw [pyIntMag.eq_def]
    simp only [if_pos hc]
    rw [pyDigitsAux_all_digits rest _ (fun d hdm => hd d (by simp [hdm]))]
    simp [decimalValue]

/-! ### Claim theorems: the config loader (C5, C6, C7) -/

/-- C5, counterexample: a first row whose only cell is `key` has its
first cell trimmed/lowercased equal to `key`, yet `read_csv_config` does
not treat it as a header — it stores it as the data pair `("key", "")`,
so the claimed "if and only if" fails. -/
theorem first_row_lone_key_is_data :
    read_csv_config [["key"]] = .ok [("key", "")]
      ∧ read_csv_config [["key"]] ≠ .ok [] := by
  constructor
  · decide
  · decide

/-- C5 (amended): the loader treats the first row as a header exactly
when it has at least two cells and its first cell, trimmed and
lowercased, equals `key`; any other nonempty first row is stored as a
data pair, a missing second column read as the empty string. -/
theorem first_row_header_detection :
    (∀ (c0 c1 : String) (t : List String) (rest : List (List String)),
        pyLower (pyStrip c0) = "key" →
        read_csv_config ((c0 :: c1 :: t) :: rest) = processRows [] rest)
  ∧ (∀ (c0 c1 : String) (t : List String) (rest : List (List String)),
        pyLower (pyStrip c0) ≠ "key" →
        read_csv_config ((c0 :: c1 :: t) :: rest)
          = processRows [(pyStrip c0, pyStrip c1)] rest)
  ∧ (∀ (c0 : String) (rest : List (List String)),
        read_csv_config ([c0] :: rest) = processRows [(pyStrip c0, "")] rest) := by
  refine ⟨fun c0 c1 t rest h => ?_, fun c0 c1 t rest h => ?_, fun c0 rest => ?_⟩
  · rw [read_csv_config, if_pos h]
  · rw [read_csv_config, if_neg h]
    rfl
  · rfl

/-- C5, witness for the amended claim at a concrete input. -/
theorem first_row_header_detection_witness :
    read_csv_config [["key", "value"], ["a", "b"]] = .ok [("a", "b")] :=
  (first_row_header_detection.1 "key" "value" [] [["a", "b"]] (by decide)).trans (by decide)

/-- C6, counterexample: a first data row whose key trims to the empty
string is stored under the empty key, with no `EmptyKey` error, so the
claimed "every row (including the first)" fails. -/
theorem empty_key_first_row_stored :
    read_csv_config [["", "x"]] = .ok [("", "x")] := by
  decide

/-- C6 (amended): every row after the first whose trimmed key is empty
fails with `EmptyKey` reporting the row (so it is never stored); a first
data row with an empty trimmed key is stored under the empty key without
any error. -/
theorem empty_key_row_handling :
    (∀ (cfg : List (String × String)) (c0 c1 : String) (t : List String)
        (rest : List (List String)),
        pyStrip c0 = "" →
        processRows cfg ((c0 :: c1 :: t) :: rest) = .error (.emptyKey (c0 :: c1 :: t)))
  ∧ (∀ (c0 c1 : String) (t : List String) (rest : List (List String)),
        pyStrip c0 = "" →
        read_csv_config ((c0 :: c1 :: t) :: rest)
          = processRows [("", pyStrip c1)] rest) := by
  constructor
  · intro cfg c0 c1 t rest h
    rw [processRows, if_pos h]
  · intro c0 c1 t rest h
    rw [read_csv_config, if_neg (by rw [h]; decide)]
    rw [h]
    rfl

/-- C6, witness for the amended claim at a concrete input: the empty-key
row in second position is rejected. -/
theorem empty_key_row_handling_witness :
    processRows [] [[" ", "b"], ["a", "c"]] = .error (.emptyKey [" ", "b"]) :=
  empty_key_row_handling.1 [] " " "b" [] [["a", "c"]] (by decide)

/-- C7, counterexample: an empty first row is not silently skipped — the
loader hits `header[0]` and raises an uncaught `IndexError` instead of
proceeding with the remaining rows. -/
theorem empty_first_row_not_skipped :
    read_csv_config [[], ["a", "b"]] = .error .indexError
      ∧ read_csv_config [[], ["a", "b"]] ≠ .ok [("a", "b")] := by
  constructor
  · decide
  · decide

/-- C7 (amended): every empty row after the first is silently skipped
and processing continues with the remaining rows; an empty first row
instead raises the uncaught `IndexError`. -/
theorem empty_row_handling :
    (∀ (cfg : List (String × String)) (rest : List (List String)),
        processRows cfg ([] :: rest) = processRows cfg rest)
  ∧ (∀ rest : List (List String),
        read_csv_config ([] :: rest) = .error .indexError) := by
  exact ⟨fun _ _ => rfl, fun _ => rfl⟩

/-! ### Claim theorems: max_depth parsing (C8) -/

/-- C8: after trimming, an empty `max_depth` fails with `EmptyField`; a
nonempty all-digit numeral parses to exactly its base-10 value; a parse
failure of Python `int` is `NotAnInteger`; a parsed negative value is
`NegativeValue`. -/
theorem max_depth_parsing (s : String) :
    (pyStrip s = "" → parseMaxDepth s = .error (.emptyField "max_depth"))
  ∧ ((pyStrip s).data ≠ [] → (∀ c ∈ (pyStrip s).data, c.isDigit) →
      parseMaxDepth s = .ok ((decimalValue (pyStrip s).data : Nat) : Int))
  ∧ (pyStrip s ≠ "" → pyInt (pyStrip s) = none →
      parseMaxDepth s = .error .notAnInteger)
  ∧ (∀ n : Int, pyInt (pyStrip s) = some n → n < 0 →
      parseMaxDepth s = .error .negativeValue) := by
  refine ⟨fun h => ?_, fun hne hd => ?_, fun hne h => ?_, fun n h hn => ?_⟩
  · rw [parseMaxDepth, if_pos h]
  · have hne' : pyStrip s ≠ "" := by
      intro h
      exact hne (by rw [h])
    rw [parseMaxDepth, if_neg hne', pyInt,
      pyIntList_all_digits (pyStrip s).data hne hd]
    have hnn : ¬ ((decimalValue (pyStrip s).data : Int) < 0) :=
      not_lt.mpr (Int.natCast_nonneg _)
    simp [hnn]
  · rw [parseMaxDepth, if_neg hne, h]
  · have hne : pyStrip s ≠ "" := by
      intro he
      rw [he] at h
      exact Option.noConfusion (h.symm.trans rfl)
    rw [parseMaxDepth, if_neg hne, h]
    simp [hn]

/-- C8, witness at concrete inputs: `" 42 "` parses to 42 and `"-3"`
fails with `NegativeValue`. -/
theorem max_depth_parsing_witness :
    parseMaxDepth " 42 " = .ok ((decimalValue (pyStrip " 42 ").data : Nat) : Int)
      ∧ parseMaxDepth "-3" = .error .negativeValue :=
  ⟨(max_depth_parsing " 42 ").2.1 (by decide) (by decide),
   (max_depth_parsing "-3").2.2.2 (-3) (by decide) (by decide)⟩

/-! ### Claim theorems: required-key check (C3) -/

/-- Sorting the missing required keys coincides with filtering the
sorted required-key list. -/
theorem missingList_eq_filter (cfg : List (String × String)) :
    missingList cfg
      = REQUIRED_KEYS_SORTED.filter (fun k => (dictGet cfg k).isNone) := by
  cases h1 : (dictGet cfg "package_name").isNone <;>
  cases h2 : (dictGet cfg "repo_url_or_path").isNone <;>
  cases h3 : (dictGet cfg "test_repo_mode").isNone <;>
  cases h4 : (dictGet cfg "output_image").isNone <;>
  cases h5 : (dictGet cfg "ascii_mode").isNone <;>
  cases h6 : (dictGet cfg "max_depth").isNone <;>
    · simp only [missingList, REQUIRED_KEYS, REQUIRED_KEYS_SORTED, List.filter,
        h1, h2, h3, h4, h5, h6]
      decide

/-- C3: a Raw Config missing at least one required key fails with
`MissingKeys`; the reported list is sorted, contains exactly the
required keys absent from the config, and no later rule contributes to
the error. -/
theorem missing_keys_fail_first (fs : String → Bool) (ab : String → String)
    (cfg : List (String × String)) (h : missingList cfg ≠ []) :
    validate_and_normalize fs ab cfg = .error (.missingKeys (missingList cfg))
  ∧ List.Sorted (fun a b => a ≤ b) (missingList cfg)
  ∧ (∀ k, k ∈ missingList cfg ↔ k ∈ REQUIRED_KEYS ∧ dictGet cfg k = none) := by
  refine ⟨?_, ?_, fun k => ?_⟩
  · rw [validate_and_normalize, if_pos h]
  · rw [missingList_eq_filter]
    have hs : List.Pairwise (fun a b => pyStrLe a b = true) REQUIRED_KEYS_SORTED := by
      decide
    exact List.Pairwise.sublist (List.filter_sublist _)
      (hs.imp (fun hab => pyStrLe_le _ _ hab))
  · rw [missingList_eq_filter, List.mem_filter]
    simp only [Option.isNone_iff_eq_none, decide_eq_true_eq]
    constructor
    · rintro ⟨hk, hn⟩
      refine ⟨?_, hn⟩
      revert hk
      simp [REQUIRED_KEYS_SORTED, REQUIRED_KEYS]
      tauto
    · rintro ⟨hk, hn⟩
      refine ⟨?_, hn⟩
      revert hk
      simp [REQUIRED_KEYS_SORTED, REQUIRED_KEYS]
      tauto

/-- C3, witness: a config holding only `package_name` is rejected with
the other five keys listed in sorted order. -/
theorem missing_keys_fail_first_witness :
    validate_and_normalize (fun _ => false) (fun s => s) [("package_name", "x")]
      = .error (.missingKeys
          ["ascii_mode", "max_depth", "output_image", "repo_url_or_path",
           "test_repo_mode"]) := by
  rw [(missing_keys_fail_first (fun _ => false) (fun s => s)
    [("package_name", "x")] (by decide)).1]
  decide

/-! ### Claim theorems: test_repo_mode checks (C4) -/

/-- C4: once the earlier rules pass, a `test_repo_mode` that trims and
lowercases to `local` while the repo classification is `unknown` fails
with `InconsistentMode`; and the enum membership check fires first — any
mode outside `none`/`local`/`clone` fails with `InvalidEnum` regardless
of the classification. -/
theorem local_mode_requires_known_repo (fs : String → Bool) (ab : String → String)
    (cfg : List (String × String))
    (h1 : missingList cfg = [])
    (h2 : pyStrip (dictGetD cfg "package_name") ≠ "")
    (h3 : pyStrip (dictGetD cfg "repo_url_or_path") ≠ "") :
    (pyLower (pyStrip (dictGetD cfg "test_repo_mode")) = "local" →
      (classifyRepo fs ab (pyStrip (dictGetD cfg "repo_url_or_path"))).2 = "unknown" →
      validate_and_normalize fs ab cfg = .error .inconsistentMode)
  ∧ (pyLower (pyStrip (dictGetD cfg "test_repo_mode")) ∉ VALID_TEST_REPO_MODES →
      validate_and_normalize fs ab cfg = .error (.invalidEnum "test_repo_mode")) := by
  constructor
  · intro hm hu
    rw [validate_and_normalize, if_neg (by simp [h1]), if_neg h2, if_neg h3,
      if_neg (by simp [hm, VALID_TEST_REPO_MODES]), if_pos ⟨hm, hu⟩]
  · intro hm
    rw [validate_and_normalize, if_neg (by simp [h1]), if_neg h2, if_neg h3,
      if_pos hm]

/-- C4, witness: scenario B — an existing-looking config whose repo path
does not exist combined with `test_repo_mode = local` is rejected as
inconsistent. -/
theorem local_mode_requires_known_repo_witness :
    validate_and_normalize (fun _ => false) (fun s => s)
      [("package_name", "foo"), ("repo_url_or_path", "/nonexistent/path"),
       ("test_repo_mode", "local"), ("output_image", "out.png"),
       ("ascii_mode", "tree"), ("max_depth", "3")]
      = .error .inconsistentMode :=
  (local_mode_requires_known_repo (fun _ => false) (fun s => s)
    [("package_name", "foo"), ("repo_url_or_path", "/nonexistent/path"),
     ("test_repo_mode", "local"), ("output_image", "out.png"),
     ("ascii_mode", "tree"), ("max_depth", "3")]
    (by decide) (by decide) (by decide)).1 (by decide) (by decide)

/-! ### Claim theorems: normalized output shape (C10) and repo
classification (C2) -/

/-- Every successful validation yields the seven normalized keys in the
fixed insertion order (shared helper). -/
theorem validate_ok_keys (fs : String → Bool) (ab : String → String)
    (cfg out : List (String × String))
    (h : validate_and_normalize fs ab cfg = .ok out) :
    out.map Prod.fst = NORMALIZED_KEYS := by
  rw [validate_and_normalize] at h
  repeat' split at h
  all_goals try exact Except.noConfusion h
  cases h
  rfl

/-- C10: on success the normalized key set is exactly the seven fixed
keys, and validation depends only on the values of the six required
keys — configs agreeing there validate identically, so extra keys are
ignored. -/
theorem normalized_keys_exact_extras_ignored (fs : String → Bool)
    (ab : String → String) :
    (∀ cfg out, validate_and_normalize fs ab cfg = .ok out →
        out.map Prod.fst = NORMALIZED_KEYS)
  ∧ (∀ cfg cfg2,
        (∀ k ∈ REQUIRED_KEYS, dictGet cfg k = dictGet cfg2 k) →
        validate_and_normalize fs ab cfg = validate_and_normalize fs ab cfg2) := by
  constructor
  · exact fun cfg out h => validate_ok_keys fs ab cfg out h
  · intro cfg cfg2 hag
    have e1 := hag "package_name" (by decide)
    have e2 := hag "repo_url_or_path" (by decide)
    have e3 := hag "test_repo_mode" (by decide)
    have e4 := hag "output_image" (by decide)
    have e5 := hag "ascii_mode" (by decide)
    have e6 := hag "max_depth" (by decide)
    have hm : missingList cfg = missingList cfg2 := by
      rw [missingList_eq_filter, missingList_eq_filter]
      apply List.filter_congr
      intro k hk
      fin_cases hk <;> simp [e1, e2, e3, e4, e5, e6]
    have d1 : dictGetD cfg "package_name" = dictGetD cfg2 "package_name" := by
      rw [dictGetD, dictGetD, e1]
    have d2 : dictGetD cfg "repo_url_or_path" = dictGetD cfg2 "repo_url_or_path" := by
      rw [dictGetD, dictGetD, e2]
    have d3 : dictGetD cfg "test_repo_mode" = dictGetD cfg2 "test_repo_mode" := by
      rw [dictGetD, dictGetD, e3]
    have d4 : dictGetD cfg "output_image" = dictGetD cfg2 "output_image" := by
      rw [dictGetD, dictGetD, e4]
    have d5 : dictGetD cfg "ascii_mode" = dictGetD cfg2 "ascii_mode" := by
      rw [dictGetD, dictGetD, e5]
    have d6 : dictGetD cfg "max_depth" = dictGetD cfg2 "max_depth" := by
      rw [dictGetD, dictGetD, e6]
    simp only [validate_and_normalize]
    rw [hm, d1, d2, d3, d4, d5, d6]

/-- C10, witness: adding an extra, unknown key changes nothing. -/
theorem normalized_keys_exact_extras_ignored_witness :
    validate_and_normalize (fun s => s == "/tmp") (fun s => s)
      [("package_name", "foo"), ("repo_url_or_path", "/tmp"),
       ("test_repo_mode", "local"), ("output_image", "out.png"),
       ("ascii_mode", "tree"), ("max_depth", "3")]
    = validate_and_normalize (fun s => s == "/tmp") (fun s => s)
      [("package_name", "foo"), ("repo_url_or_path", "/tmp"),
       ("test_repo_mode", "local"), ("output_image", "out.png"),
       ("ascii_mode", "tree"), ("max_depth", "3"), ("extra_key", "ignored")] :=
  (normalized_keys_exact_extras_ignored (fun s => s == "/tmp") (fun s => s)).2
    [("package_name", "foo"), ("repo_url_or_path", "/tmp"),
     ("test_repo_mode", "local"), ("output_image", "out.png"),
     ("ascii_mode", "tree"), ("max_depth", "3")]
    [("package_name", "foo"), ("repo_url_or_path", "/tmp"),
     ("test_repo_mode", "local"), ("output_image", "out.png"),
     ("ascii_mode", "tree"), ("max_depth", "3"), ("extra_key", "ignored")]
    (by decide)

/-- C2: on a successful run, the stored `repo_type` and
`repo_url_or_path` follow the source classification of the trimmed raw
value: a `http`/`https`/`git` URL with nonempty authority is `url` with
the value unchanged; otherwise an existing filesystem entry is `local`
with the value made absolute; otherwise `unknown` with the value
unchanged. -/
theorem repo_classification (fs : String → Bool) (ab : String → String)
    (cfg out : List (String × String)) (v : String)
    (hv : dictGet cfg "repo_url_or_path" = some v)
    (hok : validate_and_normalize fs ab cfg = .ok out) :
    (isRepoUrl (pyStrip v) = true →
        dictGet out "repo_type" = some "url"
        ∧ dictGet out "repo_url_or_path" = some (pyStrip v))
  ∧ (isRepoUrl (pyStrip v) = false → fs (pyStrip v) = true →
        dictGet out "repo_type" = some "local"
        ∧ dictGet out "repo_url_or_path" = some (ab (pyStrip v)))
  ∧ (isRepoUrl (pyStrip v) = false → fs (pyStrip v) = false →
        dictGet out "repo_type" = some "unknown"
        ∧ dictGet out "repo_url_or_path" = some (pyStrip v)) := by
  have hvd : dictGetD cfg "repo_url_or_path" = v := by
    rw [dictGetD, hv]
    rfl
  rw [validate_and_normalize, hvd] at hok
  repeat' split at hok
  all_goals try exact Except.noConfusion hok
  cases hok
  refine ⟨fun hu => ⟨?_, ?_⟩, fun hu hf => ⟨?_, ?_⟩, fun hu hf => ⟨?_, ?_⟩⟩ <;>
    simp [dictGet, List.find?, classifyRepo, *]

/-- C2, witness: an existing local path is classified `local` and made
absolute; here `abspath` is the identity on the already-absolute
`/tmp`. -/
theorem repo_classification_witness :
    dictGet [("package_name", "foo"), ("repo_url_or_path", "/tmp"),
             ("repo_type", "local"), ("test_repo_mode", "local"),
             ("output_image", "out.png"), ("ascii_mode", "tree"),
             ("max_depth", "3")] "repo_type" = some "local" :=
  ((repo_classification (fun s => s == "/tmp") (fun s => s)
    [("package_name", "foo"), ("repo_url_or_path", "/tmp"),
     ("test_repo_mode", "local"), ("output_image", "out.png"),
     ("ascii_mode", "tree"), ("max_depth", "3")]
    [("package_name", "foo"), ("repo_url_or_path", "/tmp"),
     ("repo_type", "local"), ("test_repo_mode", "local"),
     ("output_image", "out.png"), ("ascii_mode", "tree"), ("max_depth", "3")]
    "/tmp" (by decide) (by decide)).2.1 (by decide) (by decide)).1

/-! ### Claim theorems: standard output (C9) -/

/-- C9, counterexample: on a successful run the program's standard
output is not just the sorted `key=value` lines — `print_kv` first
prints a fixed header line, so the claim's "no other lines" fails. -/
theorem stdout_not_only_kv_lines :
    validate_and_normalize (fun s => s == "/tmp") (fun s => s)
      [("package_name", "foo"), ("repo_url_or_path", "/tmp"),
       ("test_repo_mode", "local"), ("output_image", "out.png"),
       ("ascii_mode", "tree"), ("max_depth", "3")]
    = .ok [("package_name", "foo"), ("repo_url_or_path", "/tmp"),
           ("repo_type", "local"), ("test_repo_mode", "local"),
           ("output_image", "out.png"), ("ascii_mode", "tree"),
           ("max_depth", "3")]
  ∧ print_kv [("package_name", "foo"), ("repo_url_or_path", "/tmp"),
          ("repo_type", "local"), ("test_repo_mode", "local"),
          ("output_image", "out.png"), ("ascii_mode", "tree"),
          ("max_depth", "3")]
      ≠ ["ascii_mode=tree", "max_depth=3", "output_image=out.png",
         "package_name=foo", "repo_type=local", "repo_url_or_path=/tmp",
         "test_repo_mode=local"] := by
  constructor
  · decide
  · decide

/-- C9 (amended): on every successful run, standard output is one fixed
header line followed by one `key=value` line per normalized key, in
lexicographic key order. -/
theorem stdout_header_then_sorted_kv (fs : String → Bool) (ab : String → String)
    (cfg out : List (String × String))
    (h : validate_and_normalize fs ab cfg = .ok out) :
    print_kv out
      = "Параметры конфигурации (ключ=значение):" ::
        ["ascii_mode=" ++ dictGetD out "ascii_mode",
         "max_depth=" ++ dictGetD out "max_depth",
         "output_image=" ++ dictGetD out "output_image",
         "package_name=" ++ dictGetD out "package_name",
         "repo_type=" ++ dictGetD out "repo_type",
         "repo_url_or_path=" ++ dictGetD out "repo_url_or_path",
         "test_repo_mode=" ++ dictGetD out "test_repo_mode"] := by
  have hk := validate_ok_keys fs ab cfg out h
  rw [print_kv, hk]
  have hs : sortStrings NORMALIZED_KEYS
      = ["ascii_mode", "max_depth", "output_image", "package_name",
         "repo_type", "repo_url_or_path", "test_repo_mode"] := by decide
  rw [hs]
  rfl

/-- C9, witness: scenario A prints the header and then the seven sorted
`key=value` lines. -/
theorem stdout_header_then_sorted_kv_witness :
    print_kv [("package_name", "foo"), ("repo_url_or_path", "/tmp"),
              ("repo_type", "local"), ("test_repo_mode", "local"),
              ("output_image", "out.png"), ("ascii_mode", "tree"),
              ("max_depth", "3")]
      = ["Параметры конфигурации (ключ=значение):", "ascii_mode=tree",
         "max_depth=3", "output_image=out.png", "package_name=foo",
         "repo_type=local", "repo_url_or_path=/tmp", "test_repo_mode=local"] :=
  (stdout_header_then_sorted_kv (fun s => s == "/tmp") (fun s => s)
    [("package_name", "foo"), ("repo_url_or_path", "/tmp"),
     ("test_repo_mode", "local"), ("output_image", "out.png"),
     ("ascii_mode", "tree"), ("max_depth", "3")]
    [("package_name", "foo"), ("repo_url_or_path", "/tmp"),
     ("repo_type", "local"), ("test_repo_mode", "local"),
     ("output_image", "out.png"), ("ascii_mode", "tree"), ("max_depth", "3")]
    (by decide)).trans (by decide)

/-! ### Claim theorems: fail-fast validation order (C1) -/

/-- C1: validation either fully succeeds — producing a complete
normalized config with all seven keys and no rule violated — or fails
with exactly the error of the first violated rule in the fixed
specification order; no partial config is ever produced. -/
theorem validate_fail_fast_fixed_order (fs : String → Bool) (ab : String → String)
    (cfg : List (String × String)) :
    (∃ out, validate_and_normalize fs ab cfg = .ok out
        ∧ out.map Prod.fst = NORMALIZED_KEYS
        ∧ specFirstError fs ab cfg = none)
  ∨ (∃ e, validate_and_normalize fs ab cfg = .error e
        ∧ specFirstError fs ab cfg = some e) := by
  by_cases h1 : missingList cfg ≠ []
  · exact Or.inr ⟨_, by rw [validate_and_normalize, if_pos h1],
      by rw [specFirstError, if_pos h1]⟩
  by_cases h2 : pyStrip (dictGetD cfg "package_name") = ""
  · exact Or.inr ⟨_, by rw [validate_and_normalize, if_neg h1, if_pos h2],
      by rw [specFirstError, if_neg h1, if_pos h2]⟩
  by_cases h3 : pyStrip (dictGetD cfg "repo_url_or_path") = ""
  · exact Or.inr ⟨_, by rw [validate_and_normalize, if_neg h1, if_neg h2, if_pos h3],
      by rw [specFirstError, if_neg h1, if_neg h2, if_pos h3]⟩
  by_cases h4 : pyLower (pyStrip (dictGetD cfg "test_repo_mode")) ∉ VALID_TEST_REPO_MODES
  · exact Or.inr ⟨_,
      by rw [validate_and_normalize, if_neg h1, if_neg h2, if_neg h3, if_pos h4],
      by rw [specFirstError, if_neg h1, if_neg h2, if_neg h3, if_pos h4]⟩
  by_cases h5 : pyLower (pyStrip (dictGetD cfg "test_repo_mode")) = "local"
      ∧ (classifyRepo fs ab (pyStrip (dictGetD cfg "repo_url_or_path"))).2 = "unknown"
  · exact Or.inr ⟨_,
      by rw [validate_and_normalize, if_neg h1, if_neg h2, if_neg h3, if_neg h4,
        if_pos h5],
      by rw [specFirstError, if_neg h1, if_neg h2, if_neg h3, if_neg h4, if_pos h5]⟩
  by_cases h6 : pyStrip (dictGetD cfg "output_image") = ""
  · exact Or.inr ⟨_,
      by rw [validate_and_normalize, if_neg h1, if_neg h2, if_neg h3, if_neg h4,
        if_neg h5, if_pos h6],
      by rw [specFirstError, if_neg h1, if_neg h2, if_neg h3, if_neg h4, if_neg h5,
        if_pos h6]⟩
  by_cases h7 : splitextExt (pyStrip (dictGetD cfg "output_image")) = ""
  · exact Or.inr ⟨_,
      by rw [validate_and_normalize, if_neg h1, if_neg h2, if_neg h3, if_neg h4,
        if_neg h5, if_neg h6, if_pos h7],
      by rw [specFirstError, if_neg h1, if_neg h2, if_neg h3, if_neg h4, if_neg h5,
        if_neg h6, if_pos h7]⟩
  by_cases h8 : pyLower (pyStrip (dictGetD cfg "ascii_mode")) ∉ VALID_ASCII_MODES
  · exact Or.inr ⟨_,
      by rw [validate_and_normalize, if_neg h1, if_neg h2, if_neg h3, if_neg h4,
        if_neg h5, if_neg h6, if_neg h7, if_pos h8],
      by rw [specFirstError, if_neg h1, if_neg h2, if_neg h3, if_neg h4, if_neg h5,
        if_neg h6, if_neg h7, if_pos h8]⟩
  by_cases h9 : pyStrip (dictGetD cfg "max_depth") = ""
  · exact Or.inr ⟨_,
      by rw [validate_and_normalize, if_neg h1, if_neg h2, if_neg h3, if_neg h4,
        if_neg h5, if_neg h6, if_neg h7, if_neg h8, parseMaxDepth, if_pos h9],
      by rw [specFirstError, if_neg h1, if_neg h2, if_neg h3, if_neg h4, if_neg h5,
        if_neg h6, if_neg h7, if_neg h8, if_pos h9]⟩
  rcases hmi : pyInt (pyStrip (dictGetD cfg "max_depth")) with _ | n
  · exact Or.inr ⟨_,
      by rw [validate_and_normalize, if_neg h1, if_neg h2, if_neg h3, if_neg h4,
        if_neg h5, if_neg h6, if_neg h7, if_neg h8, parseMaxDepth, if_neg h9, hmi],
      by rw [specFirstError, if_neg h1, if_neg h2, if_neg h3, if_neg h4, if_neg h5,
        if_neg h6, if_neg h7, if_neg h8, if_neg h9, hmi]⟩
  by_cases hneg : n < 0
  · exact Or.inr ⟨ValidationError.negativeValue,
      by rw [validate_and_normalize, if_neg h1, if_neg h2, if_neg h3, if_neg h4,
        if_neg h5, if_neg h6, if_neg h7, if_neg h8, parseMaxDepth, if_neg h9, hmi]
         simp [hneg],
      by rw [specFirstError, if_neg h1, if_neg h2, if_neg h3, if_neg h4, if_neg h5,
        if_neg h6, if_neg h7, if_neg h8, if_neg h9, hmi]
         simp [hneg]⟩
  · refine Or.inl
      ⟨[("package_name", pyStrip (dictGetD cfg "package_name")),
        ("repo_url_or_path",
          (classifyRepo fs ab (pyStrip (dictGetD cfg "repo_url_or_path"))).1),
        ("repo_type",
          (classifyRepo fs ab (pyStrip (dictGetD cfg "repo_url_or_path"))).2),
        ("test_repo_mode", pyLower (pyStrip (dictGetD cfg "test_repo_mode"))),
        ("output_image", pyStrip (dictGetD cfg "output_image")),
        ("ascii_mode", pyLower (pyStrip (dictGetD cfg "ascii_mode"))),
        ("max_depth", toString n)], ?_, rfl, ?_⟩
    · rw [validate_and_normalize, if_neg h1, if_neg h2, if_neg h3, if_neg h4,
        if_neg h5, if_neg h6, if_neg h7, if_neg h8, parseMaxDepth, if_neg h9, hmi]
      simp [hneg]
    · rw [specFirstError, if_neg h1, if_neg h2, if_neg h3, if_neg h4, if_neg h5,
        if_neg h6, if_neg h7, if_neg h8, if_neg h9, hmi]
      simp [hneg]

end Config2
